import Mathlib

/-!
Verification of the text-similarity-node core against its specification.

The C++ sources are shallowly embedded: Unicode strings become lists of
code points (`UStr`), `double` values become rationals, `uint32_t`
counters become naturals, and the `Result<T>` type becomes `Res`.
Every definition below is translated from a named function of the
repository; the file ends with one theorem per claim.
-/

set_option maxRecDepth 4000

namespace TextSim

/-- Unicode code points, as decoded from UTF-8 by `UnicodeString` (types.hpp,
unicode.cpp).  A string is its list of code points. -/
abbrev UStr := List Nat

/-- `Core::ErrorCode` (types.hpp). -/
inductive ErrorCode where
  | Success
  | InvalidInput
  | InvalidConfiguration
  | MemoryAllocation
  | UnicodeConversion
  | ComputationOverflow
  | ThreadingError
  | Unknown
deriving DecidableEq, Repr

/-- `Core::Result<T>` (types.hpp): either a value or an error with a code
and a message. -/
inductive Res (α : Type) where
  | ok : α → Res α
  | err : ErrorCode → String → Res α
deriving DecidableEq, Repr

/-- `Core::PreprocessingMode` (types.hpp). -/
inductive PreprocessingMode where
  | None
  | Character
  | Word
  | NGram
deriving DecidableEq, Repr

/-- `Core::NormalizationMode` (types.hpp). -/
inductive NormalizationMode where
  | None
  | Distance
  | Similarity
deriving DecidableEq, Repr

/-- `Core::CaseSensitivity` (types.hpp). -/
inductive CaseSensitivity where
  | Sensitive
  | Insensitive
deriving DecidableEq, Repr

/-- `Core::AlgorithmConfig` (types.hpp).  The `algorithm` field is kept as a
raw natural tag, reflecting that the Node bindings cast arbitrary integers
into `AlgorithmType` (node_bindings.cpp, ExtractAlgorithmType); the enum
values are Levenshtein = 0 … Chebyshev = 12. -/
structure AlgorithmConfig where
  algorithm : Nat := 0
  preprocessing : PreprocessingMode := PreprocessingMode.Character
  normalization : NormalizationMode := NormalizationMode.Similarity
  case_sensitivity : CaseSensitivity := CaseSensitivity.Sensitive
  ngram_size : Nat := 2
  threshold : Option ℚ := none
  alpha : Option ℚ := none
  beta : Option ℚ := none
  prefix_weight : Option ℚ := none
  prefix_length : Option Nat := none
  max_string_length : Option Nat := none
deriving DecidableEq, Repr

/-- The simplified per-code-point case fold used by the edit and alignment
kernels (`fold` inside `unicode_chars_equal`, levenshtein.cpp and the Jaro
translation unit): ASCII A–Z, Latin-1 C0–DE except D7, Greek 0391–03A9 and
Cyrillic 0410–042F are shifted by 0x20. -/
def foldChar (c : Nat) : Nat :=
  if 65 ≤ c ∧ c ≤ 90 then c + 32
  else if 0xC0 ≤ c ∧ c ≤ 0xDE ∧ c ≠ 0xD7 then c + 32
  else if 0x391 ≤ c ∧ c ≤ 0x3A9 then c + 32
  else if 0x410 ≤ c ∧ c ≤ 0x42F then c + 32
  else c

/-- `unicode_chars_equal` (levenshtein.cpp): code-point equality, with an
ASCII `(a|0x20)==(b|0x20)` fast path and `foldChar` otherwise when the
comparison is case-insensitive. -/
def unicodeCharsEqual (a b : Nat) (caseSensitive : Bool) : Bool :=
  if caseSensitive then a == b
  else if a < 128 && b < 128 then (a ||| 32) == (b ||| 32)
  else foldChar a == foldChar b

/-- The `uppercase_to_lowercase_basic` table of unicode.cpp, written as the
concatenation of its blocks (ASCII, Latin-1 in two runs skipping D7, Greek
basic skipping 03A2, the seven accented Greek pairs, Cyrillic). -/
def toLowerTable : List (Nat × Nat) :=
  ((List.range' 65 26).map fun c => (c, c + 32)) ++
  ((List.range' 0xC0 23).map fun c => (c, c + 32)) ++
  ((List.range' 0xD8 7).map fun c => (c, c + 32)) ++
  ((List.range' 0x391 17).map fun c => (c, c + 32)) ++
  ((List.range' 0x3A3 7).map fun c => (c, c + 32)) ++
  [(0x386, 0x3AC), (0x388, 0x3AD), (0x389, 0x3AE), (0x38A, 0x3AF),
   (0x38C, 0x3CC), (0x38E, 0x3CD), (0x38F, 0x3CE)] ++
  ((List.range' 0x410 32).map fun c => (c, c + 32))

/-- `unicode_tolower_optimized` (unicode.cpp): ASCII fast path, then the
table (the C++ uses `std::lower_bound` over this table; the Greek-accented
block is out of ascending order there, we use a direct lookup — the claims
below rely only on this being a per-code-point map), then the final-sigma
special case. -/
def toLowerChar (c : Nat) : Nat :=
  if 65 ≤ c ∧ c ≤ 90 then c + 32
  else
    match toLowerTable.lookup c with
    | some l => l
    | none => if c = 0x3C2 then 0x3C3 else c

/-- `UnicodeString::to_lower` (unicode.cpp): pointwise `toLowerChar`. -/
def toLowerStr (s : UStr) : UStr := s.map toLowerChar

/-- `is_ascii_string` (levenshtein.cpp): every UTF-8 byte below 128, which
for decoded text is every code point below 128. -/
def asciiString (s : UStr) : Bool := s.all (· < 128)

/-- `BaseAlgorithm::preprocess_string` (base_algorithm.cpp): lower-case the
input when the configuration is case-insensitive; empty input is returned
unchanged. -/
def preprocessString (cfg : AlgorithmConfig) (s : UStr) : UStr :=
  if s.isEmpty then s
  else if cfg.case_sensitivity = CaseSensitivity.Insensitive then toLowerStr s
  else s

/-- `BaseAlgorithm::get_quick_similarity_answer` (base_algorithm.cpp). -/
def quickSimilarityAnswer (cfg : AlgorithmConfig) (s1 s2 : UStr) : Option ℚ :=
  if s1.isEmpty ∧ s2.isEmpty then some 1
  else if s1.isEmpty ∨ s2.isEmpty then some 0
  else if s1 = s2 then some 1
  else if cfg.case_sensitivity = CaseSensitivity.Insensitive ∧
      toLowerStr s1 = toLowerStr s2 then some 1
  else none

/-- `BaseAlgorithm::get_quick_distance_answer` (base_algorithm.cpp). -/
def quickDistanceAnswer (cfg : AlgorithmConfig) (s1 s2 : UStr) : Option Nat :=
  if s1.isEmpty ∧ s2.isEmpty then some 0
  else if s1.isEmpty then some s2.length
  else if s2.isEmpty then some s1.length
  else if s1 = s2 then some 0
  else if cfg.case_sensitivity = CaseSensitivity.Insensitive ∧
      toLowerStr s1 = toLowerStr s2 then some 0
  else none

/-- `BaseAlgorithm::calculate_similarity` (base_algorithm.cpp): quick-answer
shortcut first, otherwise preprocess both strings and delegate to the
algorithm's `compute_similarity_impl`. -/
def calculateSimilarityWith (impl : AlgorithmConfig → UStr → UStr → Res ℚ)
    (cfg : AlgorithmConfig) (s1 s2 : UStr) : Res ℚ :=
  match quickSimilarityAnswer cfg s1 s2 with
  | some v => Res.ok v
  | none => impl cfg (preprocessString cfg s1) (preprocessString cfg s2)

/-- `BaseAlgorithm::calculate_distance` (base_algorithm.cpp). -/
def calculateDistanceWith (impl : AlgorithmConfig → UStr → UStr → Res Nat)
    (cfg : AlgorithmConfig) (s1 s2 : UStr) : Res Nat :=
  match quickDistanceAnswer cfg s1 s2 with
  | some v => Res.ok v
  | none => impl cfg (preprocessString cfg s1) (preprocessString cfg s2)

/-- Error message of the Hamming kernels (levenshtein.cpp). -/
def hammingLengthMsg : String := "Hamming distance requires equal-length strings"

/-- Number of mismatching positions, as counted by
`HammingAlgorithm::compute_hamming_distance` / `compute_hamming_simd`
(levenshtein.cpp); both loops are only entered with equal lengths. -/
def hammingMismatchCount (eqf : Nat → Nat → Bool) (s1 s2 : UStr) : Nat :=
  (List.zip s1 s2).countP fun p => !(eqf p.1 p.2)

/-- The byte comparison of `compute_hamming_simd` (levenshtein.cpp): raw
equality when sensitive, `|0x20` on both sides otherwise.  On the ASCII
strings that reach this path, bytes and code points coincide. -/
def asciiCmp (cfg : AlgorithmConfig) (a b : Nat) : Bool :=
  if cfg.case_sensitivity = CaseSensitivity.Sensitive then a == b
  else (a ||| 32) == (b ||| 32)

/-- `HammingAlgorithm::compute_distance_impl` (levenshtein.cpp). -/
def hammingComputeDistanceImpl (cfg : AlgorithmConfig) (s1 s2 : UStr) : Res Nat :=
  if s1.length ≠ s2.length then Res.err ErrorCode.InvalidInput hammingLengthMsg
  else if s1 = s2 then Res.ok 0
  else if asciiString s1 ∧ asciiString s2 then
    Res.ok (hammingMismatchCount (asciiCmp cfg) s1 s2)
  else
    Res.ok (hammingMismatchCount
      (fun a b =>
        unicodeCharsEqual a b (cfg.case_sensitivity = CaseSensitivity.Sensitive))
      s1 s2)

/-- `HammingAlgorithm::distance_to_similarity` (levenshtein.cpp). -/
def hammingDistToSim (d n : Nat) : ℚ :=
  if n = 0 then 1 else 1 - (d : ℚ) / (n : ℚ)

/-- `HammingAlgorithm::compute_similarity_impl` (levenshtein.cpp). -/
def hammingComputeSimilarityImpl (cfg : AlgorithmConfig) (s1 s2 : UStr) : Res ℚ :=
  if s1.length ≠ s2.length then Res.err ErrorCode.InvalidInput hammingLengthMsg
  else
    match hammingComputeDistanceImpl cfg s1 s2 with
    | Res.err e m => Res.err e m
    | Res.ok d => Res.ok (hammingDistToSim d s1.length)

/-- The full Hamming similarity operation: `BaseAlgorithm` driver around the
Hamming kernel. -/
def hammingCalculateSimilarity (cfg : AlgorithmConfig) (s1 s2 : UStr) : Res ℚ :=
  calculateSimilarityWith hammingComputeSimilarityImpl cfg s1 s2

/-- The full Hamming distance operation. -/
def hammingCalculateDistance (cfg : AlgorithmConfig) (s1 s2 : UStr) : Res Nat :=
  calculateDistanceWith hammingComputeDistanceImpl cfg s1 s2

/-- Character equality used by the Levenshtein kernels under a
configuration (levenshtein.cpp). -/
def levCharEq (cfg : AlgorithmConfig) (a b : Nat) : Bool :=
  unicodeCharsEqual a b (cfg.case_sensitivity = CaseSensitivity.Sensitive)

/-- One row update of `compute_distance_single_row` (levenshtein.cpp):
given the previous diagonal value, the previous value of the new row, the
remainder of the old row and the remainder of the inner string, produce
the remainder of the new row. -/
def singleRowNextAux (eqf : Nat → Nat → Bool) (c2 : Nat) :
    Nat → Nat → List Nat → UStr → List Nat
  | _, _, _, [] => []
  | _, _, [], _ => []
  | prevDiag, prevNew, oi :: old, a :: s1 =>
    let v := if eqf a c2 then prevDiag else 1 + min oi (min prevNew prevDiag)
    v :: singleRowNextAux eqf c2 oi v old s1

/-- The row for column character `c2` at row index `j`, from the old row
(`compute_distance_single_row` inner loop, levenshtein.cpp). -/
def singleRowNext (eqf : Nat → Nat → Bool) (s1 : UStr) (c2 : Nat) (j : Nat)
    (old : List Nat) : List Nat :=
  match old with
  | [] => []
  | o0 :: rest => j :: singleRowNextAux eqf c2 o0 j rest s1

/-- `compute_distance_single_row` with `s1` already the inner (shorter)
axis: start from row `0,1,…,len1` and fold the outer loop over `s2`
(levenshtein.cpp). -/
def singleRowGo (eqf : Nat → Nat → Bool) (s1 s2 : UStr) : Nat :=
  let final :=
    (s2.foldl
      (fun (st : List Nat × Nat) c => (singleRowNext eqf s1 c st.2 st.1, st.2 + 1))
      (List.range (s1.length + 1), 1)).1
  final.getD s1.length 0

/-- `LevenshteinAlgorithm::compute_distance_single_row` (levenshtein.cpp):
recurse with swapped arguments so the shorter string is the inner axis. -/
def computeDistanceSingleRow (eqf : Nat → Nat → Bool) (s1 s2 : UStr) : Nat :=
  if s1.length > s2.length then singleRowGo eqf s2 s1 else singleRowGo eqf s1 s2

/-- Body of the banded row loop of `compute_distance_with_threshold`
(levenshtein.cpp): for row `j`, fold the cells `i = min_i … max_i` over the
fresh sentinel row, tracking whether any computed cell stayed ≤ k. -/
def bandRow (eqf : Nat → Nat → Bool) (s1 : UStr) (k bw : Nat) (c : Nat) (j : Nat)
    (prev : List Nat) : List Nat × Bool :=
  let cur0 := List.replicate (2 * bw + 1) (k + 1)
  let cur1 := if j ≤ bw then cur0.set bw j else cur0
  let minI := if j > bw then j - bw else 1
  let maxI := min s1.length (j + bw)
  (List.range' minI (maxI + 1 - minI)).foldl
    (fun (st : List Nat × Bool) i =>
      let idx := bw + i - j
      let v :=
        if eqf (s1.getD (i - 1) 0) c then prev.getD idx 0
        else
          let m0 := k + 1
          let m1 := if idx > 0 then min m0 (st.1.getD (idx - 1) 0 + 1) else m0
          let m2 := if idx < 2 * bw then min m1 (prev.getD (idx + 1) 0 + 1) else m1
          min m2 (prev.getD idx 0 + 1)
      (st.1.set idx v, st.2 || decide (v ≤ k)))
    (cur1, false)

/-- The outer row loop of `compute_distance_with_threshold`
(levenshtein.cpp); `none` models the early `return max_distance + 1` taken
when a full row holds no value ≤ k. -/
def bandRows (eqf : Nat → Nat → Bool) (s1 : UStr) (k bw : Nat) :
    List Nat → Nat → List Nat → Option (List Nat)
  | [], _, prev => some prev
  | c :: rest, j, prev =>
    let r := bandRow eqf s1 k bw c j prev
    if r.2 then bandRows eqf s1 k bw rest (j + 1) r.1 else none

/-- `LevenshteinAlgorithm::compute_distance_with_threshold`
(levenshtein.cpp): saturate to `k+1` when the length difference exceeds
`k`; otherwise run the banded DP with band width `k+1`, initial row
`0,1,…` inside the band and sentinels `k+1` outside. -/
def bandDistance (eqf : Nat → Nat → Bool) (s1 s2 : UStr) (k : Nat) : Nat :=
  let len1 := s1.length
  let len2 := s2.length
  if ((len1 : ℤ) - len2).natAbs > k then k + 1
  else
    let bw := k + 1
    let prev0 :=
      (List.range (2 * bw + 1)).map fun idx =>
        if bw ≤ idx ∧ idx - bw ≤ min bw len1 then idx - bw else k + 1
    match bandRows eqf s1 k bw s2 1 prev0 with
    | none => k + 1
    | some prev => min (prev.getD (bw + len1 - len2) 0) (k + 1)

/-- `static_cast<uint32_t>` of the non-negative `double` threshold
(levenshtein.cpp, `compute_distance_optimized`): truncation toward zero. -/
def ratTruncToNat (q : ℚ) : Nat := q.floor.toNat

/-- `LevenshteinAlgorithm::compute_distance_optimized` (levenshtein.cpp):
banded variant iff a threshold is configured. -/
def levComputeDistanceOptimized (cfg : AlgorithmConfig) (s1 s2 : UStr) : Nat :=
  match cfg.threshold with
  | some t => bandDistance (levCharEq cfg) s1 s2 (ratTruncToNat t)
  | none => computeDistanceSingleRow (levCharEq cfg) s1 s2

/-- `LevenshteinAlgorithm::compute_distance_impl` (levenshtein.cpp): empty
and identical shortcuts, then the ASCII fast path (`compute_distance_simd`,
whose scalar body is the single-row DP over bytes with the `|0x20`
comparison and which ignores the threshold), then the Unicode path. -/
def levComputeDistanceImpl (cfg : AlgorithmConfig) (s1 s2 : UStr) : Res Nat :=
  if s1.isEmpty then Res.ok s2.length
  else if s2.isEmpty then Res.ok s1.length
  else if s1 = s2 then Res.ok 0
  else if asciiString s1 ∧ asciiString s2 then
    Res.ok (computeDistanceSingleRow (asciiCmp cfg) s1 s2)
  else Res.ok (levComputeDistanceOptimized cfg s1 s2)

/-- `LevenshteinAlgorithm::compute_similarity_impl` and its
`distance_to_similarity` (levenshtein.cpp). -/
def levComputeSimilarityImpl (cfg : AlgorithmConfig) (s1 s2 : UStr) : Res ℚ :=
  match levComputeDistanceImpl cfg s1 s2 with
  | Res.err e m => Res.err e m
  | Res.ok d =>
    let maxLen := max s1.length s2.length
    if maxLen = 0 then Res.ok 1
    else Res.ok (1 - (d : ℚ) / (maxLen : ℚ))

/-- The full Levenshtein distance operation (`BaseAlgorithm` driver). -/
def levCalculateDistance (cfg : AlgorithmConfig) (s1 s2 : UStr) : Res Nat :=
  calculateDistanceWith levComputeDistanceImpl cfg s1 s2

/-- The full Levenshtein similarity operation. -/
def levCalculateSimilarity (cfg : AlgorithmConfig) (s1 s2 : UStr) : Res ℚ :=
  calculateSimilarityWith levComputeSimilarityImpl cfg s1 s2

/-- Modelled from the spec: the exact (mathematical) Levenshtein distance
that claim C4 says the banded variant reports when it is at most the
threshold. -/
def levRef : UStr → UStr → Nat
  | [], t => t.length
  | a :: s, [] => (a :: s).length
  | a :: s, b :: t =>
    if a = b then levRef s t
    else 1 + min (levRef (a :: s) t) (min (levRef s (b :: t)) (levRef s t))
termination_by s t => s.length + t.length
decreasing_by
  all_goals simp [List.length_cons]
  all_goals omega

/-- `JaroAlgorithm::characters_match` under a configuration (Jaro
translation unit). -/
def charsMatch (cfg : AlgorithmConfig) (a b : Nat) : Bool :=
  unicodeCharsEqual a b (cfg.case_sensitivity = CaseSensitivity.Sensitive)

/-- The matching window of `find_matches`: `max(len1,len2)/2`, decremented
when positive (Jaro translation unit). -/
def jaroSearchRange (len1 len2 : Nat) : Nat :=
  let sr := max len1 len2 / 2
  if sr > 0 then sr - 1 else sr

/-- The inner loop of `find_matches`: the first index `j` of the window
`[lo, hi]` whose position of `s2` is unmatched and matches `c1`. -/
def jaroFindSlot (eqf : Nat → Nat → Bool) (c1 : Nat) (s2 : UStr)
    (m2 : List Bool) (lo hi : Nat) : Option Nat :=
  (List.range' lo (hi + 1 - lo)).find? fun j =>
    !(m2.getD j false) && eqf c1 (s2.getD j 0)

/-- The matching phase of `JaroAlgorithm::find_matches`: flags for both
strings plus the match count. -/
def jaroMatchPhase (eqf : Nat → Nat → Bool) (s1 s2 : UStr) :
    List Bool × List Bool × Nat :=
  let sr := jaroSearchRange s1.length s2.length
  (s1.enum.foldl
    (fun (st : List Bool × List Bool × Nat) ci =>
      let lo := if ci.1 ≥ sr then ci.1 - sr else 0
      let hi := min (ci.1 + sr) (s2.length - 1)
      match jaroFindSlot eqf ci.2 s2 st.2.1 lo hi with
      | some j => (st.1 ++ [true], st.2.1.set j true, st.2.2 + 1)
      | none => (st.1 ++ [false], st.2.1, st.2.2))
    ([], List.replicate s2.length false, 0))

/-- The `while (k < len2 && !s2_matches[k]) ++k;` walk of `find_matches`,
written with structural fuel (`m2.length` steps always suffice, since `k`
increases by one per step and the walk stops at `m2.length`). -/
def nextMatchedIdxAux : Nat → List Bool → Nat → Nat
  | 0, _, k => k
  | fuel + 1, m2, k =>
    if k < m2.length then
      if m2.getD k false then k else nextMatchedIdxAux fuel m2 (k + 1)
    else k

/-- The walk itself. -/
def nextMatchedIdx (m2 : List Bool) (k : Nat) : Nat :=
  nextMatchedIdxAux m2.length m2 k

/-- The transposition-counting phase of `find_matches`, before the final
halving. -/
def jaroRawTranspositions (eqf : Nat → Nat → Bool) (s1 s2 : UStr)
    (m1 m2 : List Bool) : Nat :=
  (s1.enum.foldl
    (fun (st : Nat × Nat) ci =>
      if m1.getD ci.1 false then
        let k := nextMatchedIdx m2 st.1
        if k < s2.length then
          (k + 1, if !eqf ci.2 (s2.getD k 0) then st.2 + 1 else st.2)
        else (k, st.2)
      else st)
    (0, 0)).2

/-- `JaroAlgorithm::find_matches` condensed to the pair (match count,
halved transposition count). -/
def jaroMatches (eqf : Nat → Nat → Bool) (s1 s2 : UStr) : Nat × Nat :=
  let ph := jaroMatchPhase eqf s1 s2
  (ph.2.2, jaroRawTranspositions eqf s1 s2 ph.1 ph.2.1 / 2)

/-- `JaroAlgorithm::compute_jaro_similarity` (Jaro translation unit). -/
def jaroSimilarity (eqf : Nat → Nat → Bool) (s1 s2 : UStr) : ℚ :=
  if s1.length = 0 ∧ s2.length = 0 then 1
  else if s1.length = 0 ∨ s2.length = 0 then 0
  else if (jaroMatches eqf s1 s2).1 = 0 then 0
  else
    max 0 (min 1
      ((((jaroMatches eqf s1 s2).1 : ℚ) / (s1.length : ℚ)
          + ((jaroMatches eqf s1 s2).1 : ℚ) / (s2.length : ℚ)
          + (((jaroMatches eqf s1 s2).1 : ℚ) - ((jaroMatches eqf s1 s2).2 : ℚ))
            / ((jaroMatches eqf s1 s2).1 : ℚ)) / 3))

/-- `JaroWinklerAlgorithm::calculate_common_prefix_length` (Jaro
translation unit): count matching code points from the front, stopping at
the first mismatch, at either end, or at the budget `maxLen`. -/
def commonPrefixLength (eqf : Nat → Nat → Bool) : UStr → UStr → Nat → Nat
  | a :: s, b :: t, m + 1 =>
    if eqf a b then commonPrefixLength eqf s t m + 1 else 0
  | _, _, _ => 0

/-- `JaroWinklerAlgorithm::get_prefix_weight` (Jaro translation unit):
the configured weight clamped to [0, 1/4], default 1/10. -/
def getPrefixWeight (cfg : AlgorithmConfig) : ℚ :=
  match cfg.prefix_weight with
  | some w => max 0 (min (1 / 4) w)
  | none => 1 / 10

/-- `JaroWinklerAlgorithm::compute_jaro_similarity` (Jaro translation
unit): plain Jaro below the threshold (default 0.7), otherwise the Winkler
boost clamped to [0, 1], with an early return when the common prefix is
empty. -/
def jaroWinklerSimilarity (cfg : AlgorithmConfig) (s1 s2 : UStr) : ℚ :=
  if jaroSimilarity (charsMatch cfg) s1 s2 < cfg.threshold.getD (7 / 10) then
    jaroSimilarity (charsMatch cfg) s1 s2
  else if commonPrefixLength (charsMatch cfg) s1 s2 (cfg.prefix_length.getD 4)
      = 0 then
    jaroSimilarity (charsMatch cfg) s1 s2
  else
    max 0 (min 1
      (jaroSimilarity (charsMatch cfg) s1 s2
        + (commonPrefixLength (charsMatch cfg) s1 s2 (cfg.prefix_length.getD 4) : ℚ)
          * getPrefixWeight cfg * (1 - jaroSimilarity (charsMatch cfg) s1 s2)))

/-- Modelled from the spec (claim C5 wording): the common prefix length as
"the run of per-code-point-equal positions, capped at
min(|s1|, |s2|, prefix_length)". -/
def specCommonPrefixLength (eqf : Nat → Nat → Bool) (s1 s2 : UStr)
    (cap : Nat) : Nat :=
  min ((List.zip s1 s2).takeWhile fun p => eqf p.1 p.2).length
    (min (min s1.length s2.length) cap)

/-- Modelled from the spec (claim C5 wording): compute Jaro; if below the
threshold return it unchanged; otherwise return
clamp(Jaro + ℓ·p·(1−Jaro), 0, 1). -/
def specJaroWinkler (cfg : AlgorithmConfig) (s1 s2 : UStr) : ℚ :=
  if jaroSimilarity (charsMatch cfg) s1 s2 < cfg.threshold.getD (7 / 10) then
    jaroSimilarity (charsMatch cfg) s1 s2
  else
    max 0 (min 1
      (jaroSimilarity (charsMatch cfg) s1 s2
        + (specCommonPrefixLength (charsMatch cfg) s1 s2
            (cfg.prefix_length.getD 4) : ℚ)
          * getPrefixWeight cfg * (1 - jaroSimilarity (charsMatch cfg) s1 s2)))

/-- A word character of the `\b\w+\b` regex used by word tokenization
(base_algorithm.cpp): ASCII alphanumerics and underscore; bytes of
multi-byte UTF-8 sequences are ≥ 0x80 and never match. -/
def isWordChar (c : Nat) : Bool :=
  (48 ≤ c && c ≤ 57) || (65 ≤ c && c ≤ 90) || (97 ≤ c && c ≤ 122) || c == 95

/-- Maximal runs of word characters, as produced by the regex scan of
`tokenize_string` in Word mode (base_algorithm.cpp).  `acc` is the
current run, reversed. -/
def wordTokensAux : UStr → UStr → List UStr
  | acc, [] => if acc.isEmpty then [] else [acc.reverse]
  | acc, c :: rest =>
    if isWordChar c then wordTokensAux (c :: acc) rest
    else if acc.isEmpty then wordTokensAux [] rest
    else acc.reverse :: wordTokensAux [] rest

/-- Word tokenization (base_algorithm.cpp, `PreprocessingMode::Word`). -/
def wordTokens (s : UStr) : List UStr := wordTokensAux [] s

/-- `BaseAlgorithm::generate_ngrams` (base_algorithm.cpp): empty for n = 0
or empty input; the whole string when it is shorter than n; otherwise the
sliding windows of length n. -/
def generateNgrams (s : UStr) (n : Nat) : List UStr :=
  if n = 0 ∨ s.isEmpty then []
  else if s.length < n then [s]
  else (List.range (s.length - n + 1)).map fun i => (s.drop i).take n

/-- `BaseAlgorithm::tokenize_string` (base_algorithm.cpp). -/
def tokenizeString (cfg : AlgorithmConfig) (s : UStr) : List UStr :=
  match cfg.preprocessing with
  | PreprocessingMode.Character => s.map fun c => [c]
  | PreprocessingMode.Word => wordTokens s
  | PreprocessingMode.NGram => generateNgrams s cfg.ngram_size
  | PreprocessingMode.None => [s]

/-- `Counter<T>` (token_based.hpp) built by incrementing once per token is
represented by the token list itself; `get_count` is `List.count`.
`total_count` sums the stored counts over the distinct keys, as the C++
loop over the hash map does. -/
def counterTotalCount (ts : List UStr) : Nat :=
  (ts.dedup.map fun k => ts.count k).sum

/-- `total_count` of `Counter::intersect` (token_based.hpp): the
intersection keeps the keys of the first counter whose other count is
positive, with the pointwise minimum; keys with other count 0 contribute
0 to the sum, so summing over all keys of the first counter is the same
total. -/
def interTotalCount (t1 t2 : List UStr) : Nat :=
  (t1.dedup.map fun k => min (t1.count k) (t2.count k)).sum

/-- `total_count` of `Counter::union_with` (token_based.hpp): the union
holds the keys of either counter with the pointwise maximum;
`(t1 ++ t2).dedup` enumerates exactly those keys once. -/
def unionTotalCount (t1 t2 : List UStr) : Nat :=
  ((t1 ++ t2).dedup.map fun k => max (t1.count k) (t2.count k)).sum

/-- `JaccardAlgorithm::compute_jaccard_multiset` (token_based.cpp). -/
def computeJaccardMultiset (t1 t2 : List UStr) : ℚ :=
  if t1 = [] ∧ t2 = [] then 1
  else if t1 = [] ∨ t2 = [] then 0
  else if unionTotalCount t1 t2 = 0 then 0
  else (interTotalCount t1 t2 : ℚ) / (unionTotalCount t1 t2 : ℚ)

/-- The intersection count of `compute_jaccard_set` (token_based.cpp): the
loop walks the smaller set counting members of the larger. -/
def jaccardSetInterCount (l1 l2 : List UStr) : Nat :=
  if l1.length ≤ l2.length then (l1.filter fun x => x ∈ l2).length
  else (l2.filter fun x => x ∈ l1).length

/-- `JaccardAlgorithm::compute_jaccard_set` (token_based.cpp): the
arguments are the distinct-token lists; the union size is
`|A| + |B| − |A∩B|`. -/
def computeJaccardSet (l1 l2 : List UStr) : ℚ :=
  if l1 = [] ∧ l2 = [] then 1
  else if l1 = [] ∨ l2 = [] then 0
  else if l1.length + l2.length - jaccardSetInterCount l1 l2 = 0 then 0
  else (jaccardSetInterCount l1 l2 : ℚ)
    / ((l1.length + l2.length - jaccardSetInterCount l1 l2 : Nat) : ℚ)

/-- `JaccardAlgorithm::compute_similarity_impl` (token_based.cpp): set
semantics under Word preprocessing (tokens inserted into
`std::unordered_set`, i.e. deduplicated), multiset semantics otherwise. -/
def jaccardComputeSimilarityImpl (cfg : AlgorithmConfig) (s1 s2 : UStr) : Res ℚ :=
  let t1 := tokenizeString cfg s1
  let t2 := tokenizeString cfg s2
  if cfg.preprocessing = PreprocessingMode.Word then
    Res.ok (computeJaccardSet t1.dedup t2.dedup)
  else Res.ok (computeJaccardMultiset t1 t2)

/-- `SorensenDiceAlgorithm::compute_dice_similarity` (token_based.cpp). -/
def computeDiceSimilarity (t1 t2 : List UStr) : ℚ :=
  if t1 = [] ∧ t2 = [] then 1
  else if t1 = [] ∨ t2 = [] then 0
  else if counterTotalCount t1 + counterTotalCount t2 = 0 then 0
  else 2 * (interTotalCount t1 t2 : ℚ)
    / ((counterTotalCount t1 + counterTotalCount t2 : Nat) : ℚ)

/-- `SorensenDiceAlgorithm::compute_similarity_impl` (token_based.cpp). -/
def sorensenDiceComputeSimilarityImpl (cfg : AlgorithmConfig) (s1 s2 : UStr) :
    Res ℚ :=
  Res.ok (computeDiceSimilarity (tokenizeString cfg s1) (tokenizeString cfg s2))

/-- The denominator of `compute_tversky_similarity` (token_based.cpp):
`diff1`/`diff2` are `uint32_t` subtractions, well-defined because the
intersection total never exceeds either counter total. -/
def tverskyDenominator (t1 t2 : List UStr) (alpha beta : ℚ) : ℚ :=
  (interTotalCount t1 t2 : ℚ)
    + alpha * ((counterTotalCount t1 - interTotalCount t1 t2 : Nat) : ℚ)
    + beta * ((counterTotalCount t2 - interTotalCount t1 t2 : Nat) : ℚ)

/-- `TverskyAlgorithm::compute_tversky_similarity` (token_based.cpp). -/
def computeTverskySimilarity (t1 t2 : List UStr) (alpha beta : ℚ) : ℚ :=
  if t1 = [] ∧ t2 = [] then 1
  else if t1 = [] ∨ t2 = [] then 0
  else if tverskyDenominator t1 t2 alpha beta = 0 then 0
  else (interTotalCount t1 t2 : ℚ) / tverskyDenominator t1 t2 alpha beta

/-- `TverskyAlgorithm::compute_similarity_impl` (token_based.cpp): fails
with `InvalidConfiguration` when alpha or beta is absent. -/
def tverskyComputeSimilarityImpl (cfg : AlgorithmConfig) (s1 s2 : UStr) : Res ℚ :=
  if cfg.alpha = none ∨ cfg.beta = none then
    Res.err ErrorCode.InvalidConfiguration
      "Tversky algorithm requires alpha and beta parameters"
  else
    Res.ok (computeTverskySimilarity (tokenizeString cfg s1)
      (tokenizeString cfg s2) (cfg.alpha.getD 0) (cfg.beta.getD 0))

/-- The full Jaccard similarity operation. -/
def jaccardCalculateSimilarity (cfg : AlgorithmConfig) (s1 s2 : UStr) : Res ℚ :=
  calculateSimilarityWith jaccardComputeSimilarityImpl cfg s1 s2

/-- The full Sørensen-Dice similarity operation. -/
def sorensenDiceCalculateSimilarity (cfg : AlgorithmConfig) (s1 s2 : UStr) :
    Res ℚ :=
  calculateSimilarityWith sorensenDiceComputeSimilarityImpl cfg s1 s2

/-- The full Tversky similarity operation. -/
def tverskyCalculateSimilarity (cfg : AlgorithmConfig) (s1 s2 : UStr) : Res ℚ :=
  calculateSimilarityWith tverskyComputeSimilarityImpl cfg s1 s2

/-- Modelled from the spec (claim C6 wording): set-based Jaccard,
`|A∩B| / |A∪B|` on deduplicated token sets, with 1 on two empty sets and
0 when exactly one is empty. -/
def specJaccardSets (A B : Finset UStr) : ℚ :=
  if A = ∅ ∧ B = ∅ then 1
  else if A = ∅ ∨ B = ∅ then 0
  else ((A ∩ B).card : ℚ) / ((A ∪ B).card : ℚ)

/-- Modelled from the spec (claim C6 wording): multiset Jaccard,
`total_count(intersect) / total_count(union)` where intersect is the
pointwise minimum of counts and union the pointwise maximum. -/
def specJaccardMultisets (A B : Multiset UStr) : ℚ :=
  if A = 0 ∧ B = 0 then 1
  else if A = 0 ∨ B = 0 then 0
  else (Multiset.card (A ∩ B) : ℚ) / (Multiset.card (A ∪ B) : ℚ)

/-- Whether a configured Jaro-Winkler prefix weight falls outside [0, 1/4]
(base_algorithm.cpp, `validate_configuration`).  The validation below:
positive ngram size; Tversky (tag 8) requires both alpha and beta,
non-negative; Jaro-Winkler (tag 4) bounds prefix weight and length; a
configured threshold must be non-negative. -/
def prefixWeightOutOfRange (o : Option ℚ) : Bool :=
  match o with
  | some w => decide (w < 0) || decide (w > 1 / 4)
  | none => false

/-- Whether a configured Jaro-Winkler prefix length exceeds 4
(base_algorithm.cpp). -/
def prefixLengthTooLarge (o : Option Nat) : Bool :=
  match o with
  | some l => decide (l > 4)
  | none => false

/-- Whether a configured threshold is negative (base_algorithm.cpp). -/
def thresholdNegative (o : Option ℚ) : Bool :=
  match o with
  | some t => decide (t < 0)
  | none => false

/-- `BaseAlgorithm::validate_configuration` (base_algorithm.cpp), body. -/
def validateConfiguration (cfg : AlgorithmConfig) : Bool :=
  if cfg.ngram_size = 0 then false
  else if cfg.algorithm = 8 ∧ (cfg.alpha = none ∨ cfg.beta = none) then false
  else if cfg.algorithm = 8 ∧ (cfg.alpha.getD 0 < 0 ∨ cfg.beta.getD 0 < 0) then
    false
  else if cfg.algorithm = 4 ∧ prefixWeightOutOfRange cfg.prefix_weight then false
  else if cfg.algorithm = 4 ∧ prefixLengthTooLarge cfg.prefix_length then false
  else if thresholdNegative cfg.threshold then false
  else true

/-- `SimilarityEngine::validate_input` (similarity_engine.cpp): both UTF-8
strings at most the hard-coded `MAX_STRING_LENGTH = 100000` bytes; the
configuration plays no part. -/
def validateInput (s1 s2 : String) : Bool :=
  s1.utf8ByteSize ≤ 100000 && s2.utf8ByteSize ≤ 100000

/-- `SimilarityEngine::merge_configs` (similarity_engine.cpp): start from
the first configuration and overlay the second, where a field equal to its
default (`algorithm` Levenshtein = 0, `preprocessing` None, `normalization`
None, `case_sensitivity` Sensitive, `ngram_size` 2) counts as unset; the
`algorithm` parameter wins when the local algorithm is the default.
`max_string_length` is never merged. -/
def mergeConfigs (g l : AlgorithmConfig) (tag : Nat) : AlgorithmConfig where
  algorithm := if l.algorithm ≠ 0 then l.algorithm else tag
  preprocessing :=
    if l.preprocessing ≠ PreprocessingMode.None then l.preprocessing
    else g.preprocessing
  normalization :=
    if l.normalization ≠ NormalizationMode.None then l.normalization
    else g.normalization
  case_sensitivity :=
    if l.case_sensitivity ≠ CaseSensitivity.Sensitive then l.case_sensitivity
    else g.case_sensitivity
  ngram_size := if l.ngram_size ≠ 2 then l.ngram_size else g.ngram_size
  threshold := if l.threshold.isSome then l.threshold else g.threshold
  alpha := if l.alpha.isSome then l.alpha else g.alpha
  beta := if l.beta.isSome then l.beta else g.beta
  prefix_weight :=
    if l.prefix_weight.isSome then l.prefix_weight else g.prefix_weight
  prefix_length :=
    if l.prefix_length.isSome then l.prefix_length else g.prefix_length
  max_string_length := g.max_string_length

/-- `ConfigurationManager::get_default_config` (similarity_engine.cpp). -/
def defaultEngineConfig : AlgorithmConfig := {}

/-- A cache entry: key, similarity value, insertion time
(`SimilarityEngine::CacheEntry`, similarity_engine.hpp). -/
abbrev CacheEntry := String × ℚ × Nat

/-- Engine state: the configuration manager's global and per-algorithm
configurations plus the result cache (similarity_engine.hpp). -/
structure EngineState where
  globalConfig : AlgorithmConfig
  algorithmConfigs : List (Nat × AlgorithmConfig)
  cache : List CacheEntry
deriving DecidableEq, Repr

/-- A freshly constructed engine: default global configuration, no
per-algorithm configuration, empty cache. -/
def initialEngineState : EngineState := ⟨defaultEngineConfig, [], []⟩

/-- `CACHE_TTL` (similarity_engine.hpp): five minutes, in milliseconds. -/
def CACHE_TTL : Nat := 300000

/-- `MAX_CACHE_SIZE` (similarity_engine.hpp). -/
def MAX_CACHE_SIZE : Nat := 10000

/-- `SimilarityEngine::create_cache_key` (similarity_engine.cpp): the
algorithm tag, the preprocessing tag, the case mode and the ngram size of
the merged configuration, plus both raw input strings, '|'-separated. -/
def createCacheKey (s1 s2 : String) (tag : Nat) (cfg : AlgorithmConfig) :
    String :=
  toString tag ++ "|"
    ++ toString (match cfg.preprocessing with
                 | PreprocessingMode.None => 0
                 | PreprocessingMode.Character => 1
                 | PreprocessingMode.Word => 2
                 | PreprocessingMode.NGram => 3) ++ "|"
    ++ toString (match cfg.case_sensitivity with
                 | CaseSensitivity.Sensitive => 0
                 | CaseSensitivity.Insensitive => 1) ++ "|"
    ++ toString cfg.ngram_size ++ "|" ++ s1 ++ "|" ++ s2

/-- `SimilarityEngine::get_cached_result` (similarity_engine.cpp): a hit
within the TTL returns the stored value; an expired entry is erased. -/
def getCachedResult (cache : List CacheEntry) (key : String) (now : Nat) :
    Option ℚ × List CacheEntry :=
  match cache.find? fun e => e.1 = key with
  | none => (none, cache)
  | some e =>
    if now - e.2.2 < CACHE_TTL then (some e.2.1, cache)
    else (none, cache.filter fun x => ¬x.1 = key)

/-- `SimilarityEngine::cleanup_cache` (similarity_engine.cpp): sweep
expired entries; if still at capacity, drop the oldest (by insertion time,
then key, as the C++ sorts (timestamp, key) pairs) down to half capacity. -/
def cleanupCache (cache : List CacheEntry) (now : Nat) : List CacheEntry :=
  let live := cache.filter fun e => now - e.2.2 < CACHE_TTL
  if live.length ≥ MAX_CACHE_SIZE then
    let victims :=
      ((live.map fun e => (e.2.2, e.1)).mergeSort fun a b =>
          a.1 < b.1 ∨ (a.1 = b.1 ∧ a.2 ≤ b.2)).take
        (live.length - MAX_CACHE_SIZE / 2)
    live.filter fun e => ¬(e.2.2, e.1) ∈ victims
  else live

/-- `SimilarityEngine::cache_result` (similarity_engine.cpp): clean up at
capacity, then store (overwriting the key, as the hash map assignment
does). -/
def cacheResult (cache : List CacheEntry) (key : String) (v : ℚ) (now : Nat) :
    List CacheEntry :=
  let c := if cache.length ≥ MAX_CACHE_SIZE then cleanupCache cache now else cache
  (key, v, now) :: c.filter fun e => ¬e.1 = key

/-- The merged configuration a similarity or distance call runs under
(similarity_engine.cpp, `calculate_similarity`): global config, overlaid
with the per-algorithm config, overlaid — only when the caller's config
differs from `{algorithm = Levenshtein, preprocessing = None}` in one of
those two fields — with the caller's config. -/
def mergedFinalConfig (st : EngineState) (tag : Nat) (cfg : AlgorithmConfig) :
    AlgorithmConfig :=
  let ac :=
    (((st.algorithmConfigs.find? fun p => p.1 = tag).map fun p => p.2).getD
      defaultEngineConfig)
  let f1 := mergeConfigs st.globalConfig ac tag
  if cfg.algorithm ≠ 0 ∨ cfg.preprocessing ≠ PreprocessingMode.None then
    mergeConfigs f1 cfg tag
  else f1

/-- `SimilarityEngine::calculate_similarity` (similarity_engine.cpp),
parameterized by the kernel dispatch `compute` (what
`factory_->create_algorithm(...)->calculate_similarity(us1, us2)`
computes).  The two exceptional constructions — an unsupported algorithm
tag (`AlgorithmFactory::create_algorithm` throws `std::invalid_argument`,
dependency container translation unit) and a configuration rejected by
`BaseAlgorithm`'s constructor (base_algorithm.cpp) — are caught by the
engine's `catch (const std::exception &)` handler, which wraps the message
under `ErrorCode::Unknown`. -/
def engineCalculateSimilarity
    (compute : Nat → AlgorithmConfig → String → String → Res ℚ)
    (st : EngineState) (now : Nat) (s1 s2 : String) (tag : Nat)
    (cfg : AlgorithmConfig) : Res ℚ × EngineState :=
  if ¬validateInput s1 s2 then
    (Res.err ErrorCode.InvalidInput "Invalid input strings", st)
  else
    let final := mergedFinalConfig st tag cfg
    let key := createCacheKey s1 s2 tag final
    let probe := getCachedResult st.cache key now
    match probe.1 with
    | some v => (Res.ok v, ⟨st.globalConfig, st.algorithmConfigs, probe.2⟩)
    | none =>
      if tag ≥ 13 then
        (Res.err ErrorCode.Unknown ("Unsupported algorithm type: " ++ toString tag),
         ⟨st.globalConfig, st.algorithmConfigs, probe.2⟩)
      else if ¬validateConfiguration final then
        (Res.err ErrorCode.Unknown "Invalid algorithm configuration",
         ⟨st.globalConfig, st.algorithmConfigs, probe.2⟩)
      else
        match compute tag final s1 s2 with
        | Res.ok v =>
          (Res.ok v,
           ⟨st.globalConfig, st.algorithmConfigs, cacheResult probe.2 key v now⟩)
        | Res.err e m =>
          (Res.err e m, ⟨st.globalConfig, st.algorithmConfigs, probe.2⟩)

/-- `SimilarityEngine::calculate_distance` (similarity_engine.cpp): same
gating and merging, no cache. -/
def engineCalculateDistance
    (compute : Nat → AlgorithmConfig → String → String → Res Nat)
    (st : EngineState) (s1 s2 : String) (tag : Nat) (cfg : AlgorithmConfig) :
    Res Nat :=
  if ¬validateInput s1 s2 then
    Res.err ErrorCode.InvalidInput "Invalid input strings"
  else
    let final := mergedFinalConfig st tag cfg
    if tag ≥ 13 then
      Res.err ErrorCode.Unknown ("Unsupported algorithm type: " ++ toString tag)
    else if ¬validateConfiguration final then
      Res.err ErrorCode.Unknown "Invalid algorithm configuration"
    else compute tag final s1 s2

/-- The code points of an engine-level UTF-8 input
(`Core::UnicodeString` construction, unicode.cpp). -/
def strCodes (s : String) : UStr := s.data.map Char.toNat

/-- The Hamming kernel as an engine `compute` argument. -/
def hammingStringCompute (_tag : Nat) (cfg : AlgorithmConfig) (s1 s2 : String) :
    Res ℚ :=
  hammingCalculateSimilarity cfg (strCodes s1) (strCodes s2)

/-- A configuration with its `max_string_length` field replaced — used to
state that the engine's input gate ignores that field. -/
def withMaxLen (cfg : AlgorithmConfig) (m : Option Nat) : AlgorithmConfig :=
  { cfg with max_string_length := m }

/-! ## Theorems -/

theorem toLowerStr_length (s : UStr) : (toLowerStr s).length = s.length := by
  simp [toLowerStr]

theorem preprocessString_length (cfg : AlgorithmConfig) (s : UStr) :
    (preprocessString cfg s).length = s.length := by
  unfold preprocessString
  split
  · rfl
  · split
    · exact toLowerStr_length s
    · rfl

theorem quickSimilarityAnswer_none (cfg : AlgorithmConfig) (s1 s2 : UStr)
    (h1 : s1 ≠ []) (h2 : s2 ≠ []) (hl : s1.length ≠ s2.length) :
    quickSimilarityAnswer cfg s1 s2 = none := by
  have e1 : s1.isEmpty = false := by simpa [List.isEmpty_iff] using h1
  have e2 : s2.isEmpty = false := by simpa [List.isEmpty_iff] using h2
  have hne : s1 ≠ s2 := fun h => hl (by rw [h])
  have hlow : toLowerStr s1 ≠ toLowerStr s2 := fun h =>
    hl (by rw [← toLowerStr_length s1, ← toLowerStr_length s2, h])
  unfold quickSimilarityAnswer
  simp [e1, e2, hne, hlow]

theorem quickDistanceAnswer_none (cfg : AlgorithmConfig) (s1 s2 : UStr)
    (h1 : s1 ≠ []) (h2 : s2 ≠ []) (hl : s1.length ≠ s2.length) :
    quickDistanceAnswer cfg s1 s2 = none := by
  have e1 : s1.isEmpty = false := by simpa [List.isEmpty_iff] using h1
  have e2 : s2.isEmpty = false := by simpa [List.isEmpty_iff] using h2
  have hne : s1 ≠ s2 := fun h => hl (by rw [h])
  have hlow : toLowerStr s1 ≠ toLowerStr s2 := fun h =>
    hl (by rw [← toLowerStr_length s1, ← toLowerStr_length s2, h])
  unfold quickDistanceAnswer
  simp [e1, e2, hne, hlow]

/-- C1, amended: for unequal code-point lengths the Hamming similarity and
distance operations fail with `InvalidInput` and a message containing
"equal-length" — provided both strings are non-empty.  (When exactly one
is empty, the `BaseAlgorithm` quick-answer shortcut returns a success
instead; see the counterexample.) -/
theorem hamming_unequal_nonempty_invalid_input (cfg : AlgorithmConfig)
    (s1 s2 : UStr) (h1 : s1 ≠ []) (h2 : s2 ≠ [])
    (hl : s1.length ≠ s2.length) :
    hammingCalculateSimilarity cfg s1 s2
        = Res.err ErrorCode.InvalidInput hammingLengthMsg ∧
    hammingCalculateDistance cfg s1 s2
        = Res.err ErrorCode.InvalidInput hammingLengthMsg ∧
    ∃ a b, hammingLengthMsg = a ++ "equal-length" ++ b := by
  have hp : (preprocessString cfg s1).length ≠ (preprocessString cfg s2).length := by
    rwa [preprocessString_length, preprocessString_length]
  refine ⟨?_, ?_, "Hamming distance requires ", " strings", rfl⟩
  · unfold hammingCalculateSimilarity calculateSimilarityWith
    rw [quickSimilarityAnswer_none cfg s1 s2 h1 h2 hl]
    unfold hammingComputeSimilarityImpl
    rw [if_pos hp]
  · unfold hammingCalculateDistance calculateDistanceWith
    rw [quickDistanceAnswer_none cfg s1 s2 h1 h2 hl]
    unfold hammingComputeDistanceImpl
    rw [if_pos hp]

/-- Witness for C1's amended theorem at "hi" / "h". -/
theorem hamming_unequal_nonempty_invalid_input_witness :
    hammingCalculateSimilarity {} [104, 105] [104]
        = Res.err ErrorCode.InvalidInput hammingLengthMsg ∧
    hammingCalculateDistance {} [104, 105] [104]
        = Res.err ErrorCode.InvalidInput hammingLengthMsg ∧
    ∃ a b, hammingLengthMsg = a ++ "equal-length" ++ b :=
  hamming_unequal_nonempty_invalid_input {} [104, 105] [104]
    (by decide) (by decide) (by decide)

/-- C1, counterexample: for the unequal-length pair "hello" / "" — one
string empty, which the claim explicitly includes — both Hamming
operations return a successful result (similarity 0, distance 5) via
`BaseAlgorithm::get_quick_similarity_answer` / `get_quick_distance_answer`,
not an `InvalidInput` error. -/
theorem hamming_empty_pair_returns_success :
    hammingCalculateSimilarity {} [104, 101, 108, 108, 111] [] = Res.ok 0 ∧
    hammingCalculateDistance {} [104, 101, 108, 108, 111] [] = Res.ok 5 := by
  constructor
  · decide
  · decide

/-- C4, code bug: with `threshold = 1`, the Levenshtein distance operation
on the non-ASCII pair "α" / "αα" reports 2 = k+1, although the true
Levenshtein distance is 1 ≤ k and the claim requires the exact distance to
be returned.  (`compute_distance_with_threshold` seeds the value for cell
(0, j) at band index `band_width` — the slot of cell (j, j) — instead of
`band_width − j`, so the column-0 boundary of the DP is effectively lost.) -/
theorem threshold_band_misses_reachable_distance :
    levCalculateDistance { threshold := some 1 } [945] [945, 945]
        = Res.ok 2 ∧
    levRef [945] [945, 945] = 1 ∧ (2 : Nat) ≠ 1 := by
  refine ⟨by decide, by simp [levRef], by decide⟩

/-- C8, code bug: Levenshtein is a symmetric algorithm (every algorithm
except Tversky with α ≠ β is, and `LevenshteinAlgorithm` inherits
`is_symmetric() = true`), yet under `threshold = 1` the banded variant is
asymmetric on "α" / "αα": distance 2 one way and 1 the other, similarity 0
versus 1/2. -/
theorem threshold_levenshtein_asymmetric :
    levCalculateDistance { threshold := some 1 } [945] [945, 945]
        = Res.ok 2 ∧
    levCalculateDistance { threshold := some 1 } [945, 945] [945]
        = Res.ok 1 ∧
    levCalculateSimilarity { threshold := some 1 } [945] [945, 945]
        = Res.ok 0 ∧
    levCalculateSimilarity { threshold := some 1 } [945, 945] [945]
        = Res.ok (1 / 2) := by
  have h12 : levComputeDistanceImpl { threshold := some 1 } [945] [945, 945]
      = Res.ok 2 := by decide
  have h21 : levComputeDistanceImpl { threshold := some 1 } [945, 945] [945]
      = Res.ok 1 := by decide
  have hq12 : quickSimilarityAnswer { threshold := some 1 } [945] [945, 945]
      = none := by decide
  have hq21 : quickSimilarityAnswer { threshold := some 1 } [945, 945] [945]
      = none := by decide
  refine ⟨by decide, by decide, ?_, ?_⟩
  · unfold levCalculateSimilarity calculateSimilarityWith
    rw [hq12]
    have hp1 : preprocessString { threshold := some 1 } [945] = [945] := by decide
    have hp2 : preprocessString { threshold := some 1 } [945, 945] = [945, 945] := by
      decide
    rw [hp1, hp2]
    unfold levComputeSimilarityImpl
    rw [h12]
    norm_num [Res.ok.injEq]
  · unfold levCalculateSimilarity calculateSimilarityWith
    rw [hq21]
    have hp1 : preprocessString { threshold := some 1 } [945] = [945] := by decide
    have hp2 : preprocessString { threshold := some 1 } [945, 945] = [945, 945] := by
      decide
    rw [hp1, hp2]
    unfold levComputeSimilarityImpl
    rw [h21]
    norm_num [Res.ok.injEq]

/-- C2, amended: a merged configuration that fails
`BaseAlgorithm::validate_configuration` makes the engine return an
unsuccessful Result whose error code is `Unknown` (message "Invalid
algorithm configuration"), not `InvalidConfiguration`: the constructor's
`std::invalid_argument` is caught by the engine's generic handler.  Stated
for a supported tag, valid inputs and (for similarity) a cache miss. -/
theorem invalid_merged_config_yields_unknown
    (compute : Nat → AlgorithmConfig → String → String → Res ℚ)
    (computeD : Nat → AlgorithmConfig → String → String → Res Nat)
    (st : EngineState) (now : Nat) (s1 s2 : String) (tag : Nat)
    (cfg : AlgorithmConfig)
    (hin : validateInput s1 s2 = true)
    (hmiss : (getCachedResult st.cache
        (createCacheKey s1 s2 tag (mergedFinalConfig st tag cfg)) now).1 = none)
    (htag : tag < 13)
    (hbad : validateConfiguration (mergedFinalConfig st tag cfg) = false) :
    (engineCalculateSimilarity compute st now s1 s2 tag cfg).1
        = Res.err ErrorCode.Unknown "Invalid algorithm configuration" ∧
    engineCalculateDistance computeD st s1 s2 tag cfg
        = Res.err ErrorCode.Unknown "Invalid algorithm configuration" := by
  have htag' : ¬tag ≥ 13 := by omega
  constructor
  · unfold engineCalculateSimilarity
    rw [if_neg (by simp [hin])]
    simp only [hmiss]
    rw [if_neg htag', if_pos (by simp [hbad])]
  · unfold engineCalculateDistance
    rw [if_neg (by simp [hin]), if_neg htag', if_pos (by simp [hbad])]

/-- Witness for C2's amended theorem: a Tversky call (tag 8) without alpha
and beta on a fresh engine. -/
theorem invalid_merged_config_yields_unknown_witness :
    (engineCalculateSimilarity (fun _ _ _ _ => Res.ok 0) initialEngineState 0
        "hello" "hallo" 8 {}).1
      = Res.err ErrorCode.Unknown "Invalid algorithm configuration" ∧
    engineCalculateDistance (fun _ _ _ _ => Res.ok 0) initialEngineState
        "hello" "hallo" 8 {}
      = Res.err ErrorCode.Unknown "Invalid algorithm configuration" :=
  invalid_merged_config_yields_unknown (fun _ _ _ _ => Res.ok 0)
    (fun _ _ _ _ => Res.ok 0) initialEngineState 0 "hello" "hallo" 8 {}
    (by decide) (by decide) (by decide) (by decide)

/-- C2, counterexample: a Tversky similarity call whose merged
configuration lacks alpha and beta — a validation violation the claim
says must yield `InvalidConfiguration` — actually yields error code
`Unknown`. -/
theorem tversky_missing_params_yields_unknown_code :
    (engineCalculateSimilarity (fun _ _ _ _ => Res.ok 0) initialEngineState 0
        "ab" "cd" 8 {}).1
      = Res.err ErrorCode.Unknown "Invalid algorithm configuration" ∧
    ErrorCode.Unknown ≠ ErrorCode.InvalidConfiguration := by
  constructor
  · decide
  · decide

/-- C9, amended: an algorithm tag outside 0..12 makes both operations fail
with error code `Unknown` (message "Unsupported algorithm type: N"), not
`InvalidConfiguration`: `AlgorithmFactory::create_algorithm` throws
`std::invalid_argument`, which the engine's generic handler wraps as
`Unknown`. -/
theorem out_of_range_tag_yields_unknown
    (compute : Nat → AlgorithmConfig → String → String → Res ℚ)
    (computeD : Nat → AlgorithmConfig → String → String → Res Nat)
    (st : EngineState) (now : Nat) (s1 s2 : String) (tag : Nat)
    (cfg : AlgorithmConfig)
    (hin : validateInput s1 s2 = true)
    (hmiss : (getCachedResult st.cache
        (createCacheKey s1 s2 tag (mergedFinalConfig st tag cfg)) now).1 = none)
    (htag : 13 ≤ tag) :
    (engineCalculateSimilarity compute st now s1 s2 tag cfg).1
        = Res.err ErrorCode.Unknown ("Unsupported algorithm type: " ++ toString tag) ∧
    engineCalculateDistance computeD st s1 s2 tag cfg
        = Res.err ErrorCode.Unknown ("Unsupported algorithm type: " ++ toString tag) := by
  constructor
  · unfold engineCalculateSimilarity
    rw [if_neg (by simp [hin])]
    simp only [hmiss]
    rw [if_pos htag]
  · unfold engineCalculateDistance
    rw [if_neg (by simp [hin]), if_pos htag]

/-- Witness for C9's amended theorem at tag 13. -/
theorem out_of_range_tag_yields_unknown_witness :
    (engineCalculateSimilarity (fun _ _ _ _ => Res.ok 0) initialEngineState 0
        "a" "b" 13 {}).1
      = Res.err ErrorCode.Unknown ("Unsupported algorithm type: " ++ toString 13) ∧
    engineCalculateDistance (fun _ _ _ _ => Res.ok 0) initialEngineState
        "a" "b" 13 {}
      = Res.err ErrorCode.Unknown ("Unsupported algorithm type: " ++ toString 13) :=
  out_of_range_tag_yields_unknown (fun _ _ _ _ => Res.ok 0)
    (fun _ _ _ _ => Res.ok 0) initialEngineState 0 "a" "b" 13 {}
    (by decide) (by decide) (by decide)

/-- C9, counterexample: for tag 13 the engine's error code is `Unknown`,
not the `InvalidConfiguration` the claim requires. -/
theorem unsupported_tag_13_unknown_code :
    (engineCalculateSimilarity (fun _ _ _ _ => Res.ok 0) initialEngineState 0
        "a" "b" 13 {}).1
      = Res.err ErrorCode.Unknown "Unsupported algorithm type: 13" ∧
    ErrorCode.Unknown ≠ ErrorCode.InvalidConfiguration := by
  constructor
  · decide
  · decide

/-- C3, amended: the engine's input gate compares the UTF-8 byte lengths
against the fixed constant 100000 (`MAX_STRING_LENGTH`,
`SimilarityEngine::validate_input`); the configuration's
`max_string_length` field has no effect on either operation. -/
theorem input_gate_uses_fixed_limit
    (compute : Nat → AlgorithmConfig → String → String → Res ℚ)
    (computeD : Nat → AlgorithmConfig → String → String → Res Nat)
    (st : EngineState) (now : Nat) (s1 s2 : String) (tag : Nat)
    (cfg : AlgorithmConfig) :
    (¬(s1.utf8ByteSize ≤ 100000 ∧ s2.utf8ByteSize ≤ 100000) →
      (engineCalculateSimilarity compute st now s1 s2 tag cfg).1
          = Res.err ErrorCode.InvalidInput "Invalid input strings" ∧
      engineCalculateDistance computeD st s1 s2 tag cfg
          = Res.err ErrorCode.InvalidInput "Invalid input strings") ∧
    (∀ m : Option Nat,
      engineCalculateSimilarity compute st now s1 s2 tag (withMaxLen cfg m)
          = engineCalculateSimilarity compute st now s1 s2 tag cfg ∧
      engineCalculateDistance computeD st s1 s2 tag (withMaxLen cfg m)
          = engineCalculateDistance computeD st s1 s2 tag cfg) := by
  constructor
  · intro hover
    have hgate : validateInput s1 s2 = false := by
      unfold validateInput
      rcases not_and_or.mp hover with h | h
      · simp [Nat.not_le.mp h |>.not_le]
      · simp [Nat.not_le.mp h |>.not_le]
    constructor
    · unfold engineCalculateSimilarity
      rw [if_pos (by simp [hgate])]
    · unfold engineCalculateDistance
      rw [if_pos (by simp [hgate])]
  · intro m
    have hmerge : mergedFinalConfig st tag (withMaxLen cfg m)
        = mergedFinalConfig st tag cfg := by
      unfold mergedFinalConfig mergeConfigs withMaxLen
      rfl
    constructor
    · unfold engineCalculateSimilarity
      rw [hmerge]
    · unfold engineCalculateDistance
      rw [hmerge]

/-- Witness for C3's amended theorem: over-limit inputs are rejected, and
setting `max_string_length` does not change the result. -/
theorem input_gate_uses_fixed_limit_witness :
    ((engineCalculateSimilarity hammingStringCompute initialEngineState 0
        (String.mk (List.replicate 100001 'a')) "b" 2 {}).1
      = Res.err ErrorCode.InvalidInput "Invalid input strings" ∧
    engineCalculateDistance (fun _ _ _ _ => Res.ok 0) initialEngineState
        (String.mk (List.replicate 100001 'a')) "b" 2 {}
      = Res.err ErrorCode.InvalidInput "Invalid input strings") ∧
    engineCalculateSimilarity hammingStringCompute initialEngineState 0
        "ab" "ab" 2 (withMaxLen {} (some 1))
      = engineCalculateSimilarity hammingStringCompute initialEngineState 0
        "ab" "ab" 2 {} := by
  have hrep : ∀ n, String.utf8Len (List.replicate n 'a') = n := by
    intro n
    induction n with
    | zero => simp
    | succ k ih => simp [List.replicate_succ, ih, show ('a').utf8Size = 1 from rfl]
  have hsize : (String.mk (List.replicate 100001 'a')).utf8ByteSize = 100001 := by
    rw [String.utf8ByteSize_mk]
    exact hrep 100001
  refine ⟨(input_gate_uses_fixed_limit hammingStringCompute
      (fun _ _ _ _ => Res.ok 0) initialEngineState 0
      (String.mk (List.replicate 100001 'a')) "b" 2 {}).1 ?_,
    ((input_gate_uses_fixed_limit hammingStringCompute
      (fun _ _ _ _ => Res.ok 0) initialEngineState 0 "ab" "ab" 2 {}).2
      (some 1)).1⟩
  rw [hsize]
  omega

/-- C3, counterexample: with `max_string_length = 1` configured, the
2-byte inputs "ab" / "ab" exceed the configured limit, yet the similarity
call is not rejected — it succeeds with value 1, because
`SimilarityEngine::validate_input` ignores the configuration. -/
theorem configured_limit_ignored_small_limit_not_rejected :
    (engineCalculateSimilarity hammingStringCompute initialEngineState 0
        "ab" "ab" 2 (withMaxLen {} (some 1))).1 = Res.ok 1 ∧
    "ab".utf8ByteSize > 1 := by
  constructor
  · decide
  · decide

theorem createCacheKey_congr (s1 s2 : String) (tag : Nat)
    (c c' : AlgorithmConfig) (hp : c.preprocessing = c'.preprocessing)
    (hc : c.case_sensitivity = c'.case_sensitivity)
    (hn : c.ngram_size = c'.ngram_size) :
    createCacheKey s1 s2 tag c = createCacheKey s1 s2 tag c' := by
  unfold createCacheKey
  rw [hp, hc, hn]

theorem getCachedResult_cacheResult (c : List CacheEntry) (key : String)
    (v : ℚ) (now now2 : Nat) (h : now2 - now < CACHE_TTL) :
    (getCachedResult (cacheResult c key v now) key now2).1 = some v := by
  unfold cacheResult getCachedResult
  simp [h]

/-- C10: the similarity cache key is exactly (algorithm tag, preprocessing,
case mode, ngram size, s1, s2) — the omitted parameters (threshold, alpha,
beta, prefix weight, prefix length) do not enter it — and a second
similarity call within the TTL that agrees on those six components returns
the value cached by the first call, whatever its own parameters and even
its own kernel (`computeB`) would have produced. -/
theorem cache_key_components_and_hit :
    (∀ (s1 s2 : String) (tag : Nat) (c c' : AlgorithmConfig),
        c.preprocessing = c'.preprocessing →
        c.case_sensitivity = c'.case_sensitivity →
        c.ngram_size = c'.ngram_size →
        createCacheKey s1 s2 tag c = createCacheKey s1 s2 tag c') ∧
    (∀ (computeA computeB : Nat → AlgorithmConfig → String → String → Res ℚ)
        (st : EngineState) (now1 now2 : Nat) (s1 s2 : String) (tag : Nat)
        (cfgA cfgB : AlgorithmConfig) (v : ℚ),
        validateInput s1 s2 = true →
        tag < 13 →
        (getCachedResult st.cache
            (createCacheKey s1 s2 tag (mergedFinalConfig st tag cfgA)) now1).1
          = none →
        validateConfiguration (mergedFinalConfig st tag cfgA) = true →
        computeA tag (mergedFinalConfig st tag cfgA) s1 s2 = Res.ok v →
        (mergedFinalConfig st tag cfgB).preprocessing
            = (mergedFinalConfig st tag cfgA).preprocessing →
        (mergedFinalConfig st tag cfgB).case_sensitivity
            = (mergedFinalConfig st tag cfgA).case_sensitivity →
        (mergedFinalConfig st tag cfgB).ngram_size
            = (mergedFinalConfig st tag cfgA).ngram_size →
        now1 ≤ now2 → now2 - now1 < CACHE_TTL →
        (engineCalculateSimilarity computeB
            (engineCalculateSimilarity computeA st now1 s1 s2 tag cfgA).2
            now2 s1 s2 tag cfgB).1 = Res.ok v) := by
  constructor
  · exact createCacheKey_congr
  · intro computeA computeB st now1 now2 s1 s2 tag cfgA cfgB v hin htag hmiss
      hval hcomp hp hc hn hle httl
    have hst1 : (engineCalculateSimilarity computeA st now1 s1 s2 tag cfgA).2
        = ⟨st.globalConfig, st.algorithmConfigs,
            cacheResult
              (getCachedResult st.cache
                (createCacheKey s1 s2 tag (mergedFinalConfig st tag cfgA)) now1).2
              (createCacheKey s1 s2 tag (mergedFinalConfig st tag cfgA)) v now1⟩ := by
      unfold engineCalculateSimilarity
      rw [if_neg (by simp [hin])]
      simp only [hmiss]
      rw [if_neg (by omega), if_neg (by simp [hval]), hcomp]
    rw [hst1]
    have hmergeB : mergedFinalConfig
        (⟨st.globalConfig, st.algorithmConfigs,
          cacheResult
            (getCachedResult st.cache
              (createCacheKey s1 s2 tag (mergedFinalConfig st tag cfgA)) now1).2
            (createCacheKey s1 s2 tag (mergedFinalConfig st tag cfgA)) v now1⟩ :
          EngineState) tag cfgB = mergedFinalConfig st tag cfgB := rfl
    have hkeyB : createCacheKey s1 s2 tag (mergedFinalConfig st tag cfgB)
        = createCacheKey s1 s2 tag (mergedFinalConfig st tag cfgA) :=
      createCacheKey_congr s1 s2 tag _ _ hp hc hn
    unfold engineCalculateSimilarity
    rw [if_neg (by simp [hin])]
    simp only [hmergeB, hkeyB]
    simp only [getCachedResult_cacheResult _ _ _ _ _ httl]

/-- Witness for C10: a Hamming similarity on "abc"/"abd" is cached; a
second call with a different threshold and a kernel that would return 0
still answers the cached 2/3. -/
theorem cache_key_components_and_hit_witness :
    (engineCalculateSimilarity (fun _ _ _ _ => Res.ok 0)
        (engineCalculateSimilarity hammingStringCompute initialEngineState 0
          "abc" "abd" 2 {}).2
        100 "abc" "abd" 2 { threshold := some 5 }).1 = Res.ok (2 / 3) := by
  have h23 : hammingStringCompute 2
      (mergedFinalConfig initialEngineState 2 {}) "abc" "abd" = Res.ok (2 / 3) := by
    unfold hammingStringCompute hammingCalculateSimilarity calculateSimilarityWith
    rw [show quickSimilarityAnswer (mergedFinalConfig initialEngineState 2 {})
        (strCodes "abc") (strCodes "abd") = none from by decide]
    rw [show preprocessString (mergedFinalConfig initialEngineState 2 {})
        (strCodes "abc") = [97, 98, 99] from by decide]
    rw [show preprocessString (mergedFinalConfig initialEngineState 2 {})
        (strCodes "abd") = [97, 98, 100] from by decide]
    unfold hammingComputeSimilarityImpl
    rw [if_neg (by decide)]
    rw [show hammingComputeDistanceImpl (mergedFinalConfig initialEngineState 2 {})
        [97, 98, 99] [97, 98, 100] = Res.ok 1 from by decide]
    simp only [List.length_cons, List.length_nil]
    unfold hammingDistToSim
    norm_num
  exact cache_key_components_and_hit.2 hammingStringCompute
    (fun _ _ _ _ => Res.ok 0) initialEngineState 0 100 "abc" "abd" 2 {}
    { threshold := some 5 } (2 / 3) (by decide) (by decide) (by decide)
    (by decide) h23 (by decide) (by decide) (by decide) (by decide) (by decide)

theorem clamp_of_mem {x : ℚ} (h0 : 0 ≤ x) (h1 : x ≤ 1) :
    max 0 (min 1 x) = x := by
  rw [min_eq_right h1, max_eq_right h0]

theorem jaroSimilarity_mem (eqf : Nat → Nat → Bool) (s1 s2 : UStr) :
    0 ≤ jaroSimilarity eqf s1 s2 ∧ jaroSimilarity eqf s1 s2 ≤ 1 := by
  unfold jaroSimilarity
  split
  · exact ⟨zero_le_one, le_refl 1⟩
  · split
    · exact ⟨le_refl 0, zero_le_one⟩
    · split
      · exact ⟨le_refl 0, zero_le_one⟩
      · exact ⟨le_max_left 0 _, max_le zero_le_one (min_le_left 1 _)⟩

theorem commonPrefixLength_eq_spec (eqf : Nat → Nat → Bool) :
    ∀ (s1 s2 : UStr) (cap : Nat),
      commonPrefixLength eqf s1 s2 cap = specCommonPrefixLength eqf s1 s2 cap := by
  intro s1
  induction s1 with
  | nil =>
    intro s2 cap
    simp [commonPrefixLength, specCommonPrefixLength]
  | cons a s ih =>
    intro s2 cap
    cases s2 with
    | nil => simp [commonPrefixLength, specCommonPrefixLength]
    | cons b t =>
      cases cap with
      | zero => simp [commonPrefixLength, specCommonPrefixLength]
      | succ m =>
        by_cases h : eqf a b
        · have hrec := ih t m
          unfold specCommonPrefixLength at hrec ⊢
          simp [commonPrefixLength, h, hrec]
          omega
        · simp [commonPrefixLength, h, specCommonPrefixLength]

/-- C5: Jaro-Winkler computes Jaro first; below the threshold (default 0.7)
the Jaro value is returned unchanged, otherwise the result is
clamp(Jaro + ℓ·p·(1−Jaro), 0, 1) with ℓ the common prefix length capped at
min(|s1|, |s2|, prefix_length default 4) and p the prefix weight clamped to
[0, 1/4] (default 1/10); on "martha"/"marhta" with prefix_weight 0.1 and
prefix_length 4, Jaro is 17/18 ≈ 0.9444 and the result 173/180 ≈ 0.9611
> 0.9. -/
theorem jaro_winkler_matches_spec :
    (∀ (cfg : AlgorithmConfig) (s1 s2 : UStr),
        jaroWinklerSimilarity cfg s1 s2 = specJaroWinkler cfg s1 s2) ∧
    jaroSimilarity
        (charsMatch { prefix_weight := some (1 / 10), prefix_length := some 4 })
        [109, 97, 114, 116, 104, 97] [109, 97, 114, 104, 116, 97] = 17 / 18 ∧
    jaroWinklerSimilarity { prefix_weight := some (1 / 10), prefix_length := some 4 }
        [109, 97, 114, 116, 104, 97] [109, 97, 114, 104, 116, 97] = 173 / 180 ∧
    (9 / 10 : ℚ) < 173 / 180 := by
  have hgen : ∀ (cfg : AlgorithmConfig) (s1 s2 : UStr),
      jaroWinklerSimilarity cfg s1 s2 = specJaroWinkler cfg s1 s2 := by
    intro cfg s1 s2
    unfold jaroWinklerSimilarity specJaroWinkler
    rw [commonPrefixLength_eq_spec]
    by_cases hthr : jaroSimilarity (charsMatch cfg) s1 s2 < cfg.threshold.getD (7 / 10)
    · rw [if_pos hthr, if_pos hthr]
    · rw [if_neg hthr, if_neg hthr]
      by_cases hl : specCommonPrefixLength (charsMatch cfg) s1 s2
          (cfg.prefix_length.getD 4) = 0
      · rw [if_pos hl, hl]
        obtain ⟨h0, h1⟩ := jaroSimilarity_mem (charsMatch cfg) s1 s2
        rw [Nat.cast_zero, zero_mul, zero_mul, add_zero, clamp_of_mem h0 h1]
      · rw [if_neg hl]
  have hjaro : jaroSimilarity
      (charsMatch { prefix_weight := some (1 / 10), prefix_length := some 4 })
      [109, 97, 114, 116, 104, 97] [109, 97, 114, 104, 116, 97] = 17 / 18 := by
    have hm : jaroMatches
        (charsMatch { prefix_weight := some (1 / 10), prefix_length := some 4 })
        [109, 97, 114, 116, 104, 97] [109, 97, 114, 104, 116, 97] = (6, 1) := by
      decide
    unfold jaroSimilarity
    rw [hm]
    norm_num
  refine ⟨hgen, hjaro, ?_, by norm_num⟩
  unfold jaroWinklerSimilarity
  rw [hjaro]
  rw [show commonPrefixLength
      (charsMatch { prefix_weight := some (1 / 10), prefix_length := some 4 })
      [109, 97, 114, 116, 104, 97] [109, 97, 114, 104, 116, 97]
      ((AlgorithmConfig.prefix_length
        { prefix_weight := some (1 / 10), prefix_length := some 4 }).getD 4) = 3
    from by decide]
  unfold getPrefixWeight
  norm_num

theorem count_instances (a : UStr) : ∀ l : List UStr,
    l.count a = @List.count UStr instBEqOfDecidableEq a l := by
  intro l
  induction l with
  | nil => rfl
  | cons b t ih =>
    rw [List.count_cons, @List.count_cons UStr instBEqOfDecidableEq, ih]
    have h1 : (b == a) = decide (b = a) := by
      by_cases h : b = a <;> simp [h]
    have h2 : (@BEq.beq UStr instBEqOfDecidableEq b a) = decide (b = a) := by
      by_cases h : b = a <;> simp [h]
    rw [h1, h2]

theorem coe_count_list (a : UStr) (l : List UStr) :
    Multiset.count a ↑l = l.count a := by
  rw [Multiset.coe_count, ← count_instances]

theorem dedup_map_sum (l : List UStr) (f : UStr → Nat) :
    (l.dedup.map f).sum = ∑ a in l.toFinset, f a := rfl

theorem counterTotalCount_eq_length (t : List UStr) :
    counterTotalCount t = t.length := by
  unfold counterTotalCount
  rw [dedup_map_sum]
  have h := Multiset.toFinset_sum_count_eq (↑t : Multiset UStr)
  rw [Multiset.coe_card, List.toFinset_coe] at h
  rw [← h]
  apply Finset.sum_congr rfl
  intro a _
  rw [coe_count_list]

theorem coe_toFinset_inter (t1 t2 : List UStr) :
    ((↑t1 : Multiset UStr) ∩ ↑t2).toFinset = t1.toFinset ∩ t2.toFinset := by
  rw [Multiset.toFinset_inter, List.toFinset_coe, List.toFinset_coe]

theorem interTotalCount_eq (t1 t2 : List UStr) :
    interTotalCount t1 t2 = Multiset.card ((↑t1 : Multiset UStr) ∩ ↑t2) := by
  unfold interTotalCount
  rw [dedup_map_sum, ← Multiset.toFinset_sum_count_eq, coe_toFinset_inter]
  rw [← Finset.sum_subset (Finset.inter_subset_left :
      t1.toFinset ∩ t2.toFinset ⊆ t1.toFinset) ?vanish]
  · apply Finset.sum_congr rfl
    intro a _
    rw [Multiset.count_inter, coe_count_list, coe_count_list]
  case vanish =>
    intro a ha hnotin
    have ha2 : a ∉ t2 := by
      intro hmem
      exact hnotin (Finset.mem_inter.mpr ⟨ha, List.mem_toFinset.mpr hmem⟩)
    rw [List.count_eq_zero.mpr ha2, Nat.min_zero]

theorem unionTotalCount_eq (t1 t2 : List UStr) :
    unionTotalCount t1 t2 = Multiset.card ((↑t1 : Multiset UStr) ∪ ↑t2) := by
  unfold unionTotalCount
  rw [dedup_map_sum, ← Multiset.toFinset_sum_count_eq]
  rw [show ((↑t1 : Multiset UStr) ∪ ↑t2).toFinset = (t1 ++ t2).toFinset from by
    rw [Multiset.toFinset_union, List.toFinset_coe, List.toFinset_coe,
      List.toFinset_append]]
  apply Finset.sum_congr rfl
  intro a _
  rw [Multiset.count_union, coe_count_list, coe_count_list]

theorem interTotalCount_le_left (t1 t2 : List UStr) :
    interTotalCount t1 t2 ≤ counterTotalCount t1 := by
  rw [interTotalCount_eq, counterTotalCount_eq_length]
  have h := Multiset.card_le_card
    (Multiset.inter_le_left (↑t1 : Multiset UStr) ↑t2)
  rwa [Multiset.coe_card] at h

theorem interTotalCount_le_right (t1 t2 : List UStr) :
    interTotalCount t1 t2 ≤ counterTotalCount t2 := by
  rw [interTotalCount_eq, counterTotalCount_eq_length]
  have h := Multiset.card_le_card
    (Multiset.inter_le_right (↑t1 : Multiset UStr) ↑t2)
  rwa [Multiset.coe_card] at h

theorem computeJaccardMultiset_eq_spec (t1 t2 : List UStr) :
    computeJaccardMultiset t1 t2
      = specJaccardMultisets (↑t1 : Multiset UStr) ↑t2 := by
  unfold computeJaccardMultiset specJaccardMultisets
  rw [interTotalCount_eq, unionTotalCount_eq]
  split_ifs with hA hB hC hD hE hF hG <;>
    simp_all [Multiset.coe_eq_zero]

theorem filter_mem_length_eq_card_inter (l1 l2 : List UStr) :
    ((l1.dedup.filter fun x => x ∈ l2.dedup)).length
      = (l1.toFinset ∩ l2.toFinset).card := by
  have hnd : (l1.dedup.filter fun x => x ∈ l2.dedup).Nodup :=
    l1.nodup_dedup.filter _
  rw [← List.toFinset_card_of_nodup hnd]
  congr 1
  ext a
  simp [List.mem_filter, List.mem_toFinset, List.mem_dedup, Finset.mem_inter]

theorem jaccardSetInterCount_dedup (l1 l2 : List UStr) :
    jaccardSetInterCount l1.dedup l2.dedup
      = (l1.toFinset ∩ l2.toFinset).card := by
  unfold jaccardSetInterCount
  by_cases hsz : l1.dedup.length ≤ l2.dedup.length
  · rw [if_pos hsz, filter_mem_length_eq_card_inter]
  · rw [if_neg hsz, filter_mem_length_eq_card_inter, Finset.inter_comm]

theorem dedup_toFinset (l : List UStr) : l.dedup.toFinset = l.toFinset := by
  apply List.toFinset.ext
  intro x
  simp [List.mem_dedup]

theorem dedup_length_card (l : List UStr) :
    l.dedup.length = l.toFinset.card := by
  rw [← List.toFinset_card_of_nodup l.nodup_dedup, dedup_toFinset]

theorem computeJaccardSet_eq_spec (l1 l2 : List UStr) :
    computeJaccardSet l1.dedup l2.dedup
      = specJaccardSets l1.toFinset l2.toFinset := by
  unfold computeJaccardSet specJaccardSets
  rw [jaccardSetInterCount_dedup, dedup_length_card, dedup_length_card,
    Finset.card_union l1.toFinset l2.toFinset]
  split_ifs with hA hB hC hD hE hF hG <;>
    simp_all [List.dedup_eq_nil, List.toFinset_eq_empty_iff]

/-- C6: for non-empty inputs, Jaccard under Word preprocessing is the
set-based `|A∩B| / |A∪B|` on deduplicated token sets, while under
Character or NGram preprocessing it is the multiset
`total_count(intersect) / total_count(union)` with pointwise min/max
counts; both give 1 on two empty token collections and 0 when exactly one
is empty (the spec-side formulas carry those cases). -/
theorem jaccard_set_vs_multiset_semantics (cfg : AlgorithmConfig)
    (s1 s2 : UStr) (h1 : s1 ≠ []) (h2 : s2 ≠ []) :
    (cfg.preprocessing = PreprocessingMode.Word →
      jaccardComputeSimilarityImpl cfg s1 s2
        = Res.ok (specJaccardSets (tokenizeString cfg s1).toFinset
            (tokenizeString cfg s2).toFinset)) ∧
    (cfg.preprocessing = PreprocessingMode.Character ∨
        cfg.preprocessing = PreprocessingMode.NGram →
      jaccardComputeSimilarityImpl cfg s1 s2
        = Res.ok (specJaccardMultisets (↑(tokenizeString cfg s1))
            ↑(tokenizeString cfg s2))) := by
  constructor
  · intro hw
    unfold jaccardComputeSimilarityImpl
    rw [if_pos hw, computeJaccardSet_eq_spec]
  · intro hcn
    have hnw : ¬cfg.preprocessing = PreprocessingMode.Word := by
      rcases hcn with h | h <;> rw [h] <;> intro hx <;> cases hx
    unfold jaccardComputeSimilarityImpl
    rw [if_neg hnw, computeJaccardMultiset_eq_spec]

/-- Witness for C6 at "ab ab" / "ab" (Word mode) and "aab" / "abb"
(Character mode). -/
theorem jaccard_set_vs_multiset_semantics_witness :
    jaccardComputeSimilarityImpl { preprocessing := PreprocessingMode.Word }
        [97, 98, 32, 97, 98] [97, 98]
      = Res.ok (specJaccardSets
          (tokenizeString { preprocessing := PreprocessingMode.Word }
            [97, 98, 32, 97, 98]).toFinset
          (tokenizeString { preprocessing := PreprocessingMode.Word }
            [97, 98]).toFinset) ∧
    jaccardComputeSimilarityImpl {} [97, 97, 98] [97, 98, 98]
      = Res.ok (specJaccardMultisets
          (↑(tokenizeString {} [97, 97, 98])) ↑(tokenizeString {} [97, 98, 98])) :=
  ⟨(jaccard_set_vs_multiset_semantics { preprocessing := PreprocessingMode.Word }
      [97, 98, 32, 97, 98] [97, 98] (by decide) (by decide)).1 rfl,
   (jaccard_set_vs_multiset_semantics {} [97, 97, 98] [97, 98, 98]
      (by decide) (by decide)).2 (Or.inl rfl)⟩

theorem computeTversky_half_eq_dice (t1 t2 : List UStr) :
    computeTverskySimilarity t1 t2 (1 / 2) (1 / 2)
      = computeDiceSimilarity t1 t2 := by
  unfold computeTverskySimilarity computeDiceSimilarity
  by_cases h1 : t1 = []
  · by_cases h2 : t2 = [] <;> simp [h1, h2]
  · by_cases h2 : t2 = []
    · simp [h1, h2]
    · have hca := interTotalCount_le_left t1 t2
      have hcb := interTotalCount_le_right t1 t2
      have ha0 : counterTotalCount t1 ≠ 0 := by
        rw [counterTotalCount_eq_length]
        simpa [List.length_eq_zero] using h1
      have hdenom : tverskyDenominator t1 t2 (1 / 2) (1 / 2)
          = ((counterTotalCount t1 + counterTotalCount t2 : Nat) : ℚ) / 2 := by
        unfold tverskyDenominator
        rw [Nat.cast_sub hca, Nat.cast_sub hcb]
        push_cast
        ring
      have htotpos : (0 : ℚ)
          < ((counterTotalCount t1 + counterTotalCount t2 : Nat) : ℚ) := by
        exact_mod_cast Nat.pos_of_ne_zero (by omega)
      have hdne : ¬tverskyDenominator t1 t2 (1 / 2) (1 / 2) = 0 := by
        rw [hdenom]
        exact div_ne_zero (ne_of_gt htotpos) two_ne_zero
      have htotne : ¬(counterTotalCount t1 + counterTotalCount t2 = 0) := by
        omega
      rw [if_neg (by tauto), if_neg (by tauto), if_neg hdne,
        if_neg (by tauto), if_neg (by tauto), if_neg htotne, hdenom,
        div_div_eq_mul_div]
      ring

/-- C7: Tversky with α = β = 1/2 coincides with Sørensen-Dice on the same
inputs under the same configuration, through the whole operation
(quick-answer shortcuts included). -/
theorem tversky_half_equals_dice (cfg : AlgorithmConfig) (s1 s2 : UStr)
    (ha : cfg.alpha = some (1 / 2)) (hb : cfg.beta = some (1 / 2)) :
    tverskyCalculateSimilarity cfg s1 s2
      = sorensenDiceCalculateSimilarity cfg s1 s2 := by
  unfold tverskyCalculateSimilarity sorensenDiceCalculateSimilarity
    calculateSimilarityWith
  cases hq : quickSimilarityAnswer cfg s1 s2 with
  | some v => rfl
  | none =>
    unfold tverskyComputeSimilarityImpl sorensenDiceComputeSimilarityImpl
    rw [if_neg (by simp [ha, hb]), ha, hb]
    simp only [Option.getD_some]
    rw [computeTversky_half_eq_dice]

/-- Witness for C7 at "hello" / "hallo" with bigram preprocessing. -/
theorem tversky_half_equals_dice_witness :
    tverskyCalculateSimilarity
        { preprocessing := PreprocessingMode.NGram, ngram_size := 2,
          alpha := some (1 / 2), beta := some (1 / 2) }
        [104, 101, 108, 108, 111] [104, 97, 108, 108, 111]
      = sorensenDiceCalculateSimilarity
        { preprocessing := PreprocessingMode.NGram, ngram_size := 2,
          alpha := some (1 / 2), beta := some (1 / 2) }
        [104, 101, 108, 108, 111] [104, 97, 108, 108, 111] :=
  tversky_half_equals_dice
    { preprocessing := PreprocessingMode.NGram, ngram_size := 2,
      alpha := some (1 / 2), beta := some (1 / 2) }
    [104, 101, 108, 108, 111] [104, 97, 108, 108, 111] rfl rfl

end TextSim
